import Mathlib
/-!
Shallow embedding of the taskly Shopify-admin application (TypeScript) and
proofs about it.  Each TypeScript function used by the claims is translated
into an executable Lean definition; asynchronous database and network calls
are modelled by explicit state passing and `Except`-valued oracles, and
JavaScript numbers by `Int`.  String handling is modelled at ASCII
granularity (`jsToLower` for `toLowerCase`, character-list containment
for `String.prototype.includes`).
-/
/-! ## Strings: `includes` and `startsWith` -/
/-- `hasPre pat l`: the pattern `pat` is an initial segment of `l`.
Models the leading-position check used to define substring containment. -/
def hasPre : List Char → List Char → Bool
  | [], _ => true
  | _ :: _, [] => false
  | p :: ps, t :: ts => p == t && hasPre ps ts

/-- `charsContain pat l`: `pat` occurs contiguously somewhere in `l`.
Models JavaScript `String.prototype.includes` on character lists. -/
def charsContain (pat : List Char) : List Char → Bool
  | [] => hasPre pat []
  | t :: ts => hasPre pat (t :: ts) || charsContain pat ts

/-- `strContains s pat`: models `s.includes(pat)` in JavaScript. -/
def strContains (s pat : String) : Bool :=
  charsContain pat.toList s.toList

/-- Substring occurrence as a proposition: `pat` occurs in `s` iff `s`
splits as `l ++ pat ++ r`. -/
def IsSubstr (pat s : String) : Prop :=
  ∃ l r : List Char, s.toList = l ++ pat.toList ++ r

/-- Prefix occurrence as a proposition, for `startsWith`-style statements. -/
def StrStarts (pat s : String) : Prop :=
  ∃ r : List Char, s.toList = pat.toList ++ r

/-- `toLowerCase`, modelled at ASCII granularity by mapping
`Char.toLower` over the characters (kept kernel-computable). -/
def jsToLower (s : String) : String :=
  String.mk (s.toList.map Char.toLower)

/-! ## `AIService.identifyIntent` (src/app/modules/ai/ai.service.ts) -/
/-- Intent type returned by `identifyIntent`
(`"query" | "mutation" | "message"` in ai.types). -/
inductive IntentType where
  | query
  | mutation
  | message
deriving DecidableEq, Repr

/-- The `queryKeywords` array of `identifyIntent`. -/
def queryKeywords : List String :=
  ["show", "list", "get", "find", "search", "display", "view", "see",
   "what", "how many", "count", "total", "sum", "average",
   "products", "orders", "customers", "collections", "inventory"]

/-- The `mutationKeywords` array of `identifyIntent`. -/
def mutationKeywords : List String :=
  ["create", "add", "make", "new", "build", "update", "change", "edit",
   "modify", "set", "delete", "remove", "cancel", "archive"]

/-- `AIService.identifyIntent`: lowercase the message, return `mutation`
if a mutation keyword occurs, else `query` if a query keyword occurs,
else `message`. -/
def identifyIntent (message : String) : IntentType :=
  let lowerMessage := jsToLower message
  if mutationKeywords.any (fun keyword => strContains lowerMessage keyword) then
    .mutation
  else if queryKeywords.any (fun keyword => strContains lowerMessage keyword) then
    .query
  else
    .message

/-! ## Dates with time of day

JavaScript `Date` values are modelled as (year, 0-based month,
day-of-month, milliseconds since local midnight), ordered
lexicographically — the timestamp order.  `new Date(y, m + 1, 0)`
normalises to the last day of month `m` at 00:00:00, reproduced by
`daysInMonth` with `msOfDay = 0`; usage records are dated
`CURRENT_TIMESTAMP`, so they carry an arbitrary time of day. -/
structure JsDate where
  year : Int
  month : Nat
  day : Nat
  msOfDay : Nat
deriving DecidableEq, Repr

/-- Gregorian leap-year rule (JavaScript `Date` month normalisation). -/
def isLeapYear (y : Int) : Bool :=
  (y % 4 == 0 && y % 100 != 0) || y % 400 == 0

/-- Number of days of 0-based month `m` of year `y`. -/
def daysInMonth (y : Int) (m : Nat) : Nat :=
  match m with
  | 0 => 31
  | 1 => if isLeapYear y then 29 else 28
  | 2 => 31
  | 3 => 30
  | 4 => 31
  | 5 => 30
  | 6 => 31
  | 7 => 31
  | 8 => 30
  | 9 => 31
  | 10 => 30
  | _ => 31

/-- Timestamp order on dates (lexicographic, down to the time of day). -/
def dateLE (a b : JsDate) : Bool :=
  decide (a.year < b.year) ||
    (a.year == b.year &&
      (decide (a.month < b.month) ||
        (a.month == b.month &&
          (decide (a.day < b.day) ||
            (a.day == b.day && decide (a.msOfDay ≤ b.msOfDay))))))

/-- `new Date(now.getFullYear(), now.getMonth(), 1)`: the first day of the
current month at 00:00:00. -/
def startOfMonth (now : JsDate) : JsDate :=
  ⟨now.year, now.month, 1, 0⟩

/-- `new Date(now.getFullYear(), now.getMonth() + 1, 0)`: the last day of
the current month at 00:00:00 — NOT the end of the month, so the `lte`
filter below cuts off records timestamped later on the last day. -/
def endOfMonth (now : JsDate) : JsDate :=
  ⟨now.year, now.month, daysInMonth now.year now.month, 0⟩

/-- A date is valid when its month is in range, its day exists in its
month and its time of day is under 24 hours.  Dates stored by the code
(`CURRENT_TIMESTAMP` defaults) are valid. -/
def ValidDate (d : JsDate) : Prop :=
  d.month ≤ 11 ∧ 1 ≤ d.day ∧ d.day ≤ daysInMonth d.year d.month ∧
    d.msOfDay < 86400000

instance (d : JsDate) : Decidable (ValidDate d) := by
  unfold ValidDate; infer_instance

/-! ## Usage module data model
(src/app/modules/usage/usage.types.ts, prisma schema) -/
/-- The JSON metadata object passed to `trackUsage` and stored (via
`JSON.stringify`, modelled structurally) on a usage record. -/
structure UsageMetadata where
  messageId : Option String
  conversationId : Option String
deriving DecidableEq, Repr

/-- A row of the `UsageRecord` table. -/
structure UsageRecord where
  shop : String
  subscriptionId : String
  userId : Option String
  usageType : String
  count : Int
  date : JsDate
  metadata : Option UsageMetadata
deriving DecidableEq, Repr

/-- A row of the `Subscription` table (fields used by the services). -/
structure Subscription where
  id : String
  shop : String
  planName : String
  status : String
deriving DecidableEq, Repr

/-- `UsageData` (usage.types.ts): input of `trackUsage`. -/
structure UsageData where
  shop : String
  userId : Option String
  usageType : String
  count : Option Int
  metadata : Option UsageMetadata
deriving DecidableEq, Repr

/-- `UsageLimitCheck` (usage.types.ts): result of `checkUsageLimit`. -/
structure UsageLimitCheck where
  isWithinLimit : Bool
  currentUsage : Int
  limit : Int
  planName : String
deriving DecidableEq, Repr

/-- The persistent state the usage and chat services touch, for one shop:
its `Subscription` row (if any), the `UsageRecord` rows, the `ChatMessage`
rows (ids only generated from `nextMsgId`/`nextSubId` counters). -/
structure ChatMessage where
  id : String
  shop : String
  userId : Option String
  message : String
  role : String
  conversationId : Option String
  metadata : Option String
deriving DecidableEq, Repr

structure DB where
  subscription : Option Subscription
  usageRecords : List UsageRecord
  messages : List ChatMessage
  nextSubId : Nat
  nextMsgId : Nat
deriving DecidableEq, Repr

/-- JavaScript `x || d` on an optional number: `undefined` and `0` are
falsy, every other number (including negatives and `-1`) is truthy. -/
def jsOrNum (x : Option Int) (d : Int) : Int :=
  match x with
  | none => d
  | some v => if v = 0 then d else v

/-! ## `UsageService` (src/app/modules/usage/usage.service.ts) -/
/-- The `planLimits` record of the module `UsageService`; `none` models an
absent key (unknown plan name). -/
def planLimits (planName : String) : Option Int :=
  if planName == "Free Plan" then some 20
  else if planName == "Pro Plan" then some 1000
  else if planName == "Enterprise Plan" then some 10000
  else none

/-- `getOrCreateSubscription`: return the shop's subscription, creating an
active Free Plan one when none exists.  The fresh row id is generated from
the `nextSubId` counter. -/
def getOrCreateSubscription (db : DB) (shop : String) : DB × Subscription :=
  match db.subscription with
  | some s => (db, s)
  | none =>
    let s : Subscription :=
      ⟨"sub" ++ toString db.nextSubId, shop, "Free Plan", "active"⟩
    ({ db with subscription := some s, nextSubId := db.nextSubId + 1 }, s)

/-- The `where` filter built by `getUsageForCurrentMonth` and applied by
`dal.findUsageRecords`: shop matches, date within
[startOfMonth, endOfMonth], and — when given — the usage type matches. -/
def usageWhere (shop : String) (usageType : Option String) (now : JsDate)
    (r : UsageRecord) : Bool :=
  r.shop == shop &&
    (dateLE (startOfMonth now) r.date && dateLE r.date (endOfMonth now)) &&
    (match usageType with
     | none => true
     | some t => r.usageType == t)

/-- `getUsageForCurrentMonth`: sum of the `count` fields of the filtered
records (`records.reduce((total, record) => total + record.count, 0)`). -/
def getUsageForCurrentMonth (records : List UsageRecord) (now : JsDate)
    (shop : String) (usageType : Option String) : Int :=
  ((records.filter (usageWhere shop usageType now)).foldl
    (fun total r => total + r.count) 0)

/-- `trackUsage` of the module `UsageService` (identical in
src/app/services/usage.server.ts): get or create the subscription, then
insert a usage record with `count: data.count || 1` dated now. -/
def trackUsage (db : DB) (now : JsDate) (data : UsageData) :
    DB × UsageRecord :=
  let db1 := (getOrCreateSubscription db data.shop).1
  let subscription := (getOrCreateSubscription db data.shop).2
  let r : UsageRecord :=
    { shop := data.shop
      subscriptionId := subscription.id
      userId := data.userId
      usageType := data.usageType
      count := jsOrNum data.count 1
      date := now
      metadata := data.metadata }
  ({ db1 with usageRecords := db1.usageRecords ++ [r] }, r)

/-- `checkUsageLimit` of the module `UsageService`:
`limit = planLimits[planName] || 20`, `currentUsage` from
`getUsageForCurrentMonth`, `isWithinLimit = limit === -1 || currentUsage < limit`. -/
def checkUsageLimit (db : DB) (now : JsDate) (shop : String)
    (usageType : String := "chat_query") : DB × UsageLimitCheck :=
  let db1 := (getOrCreateSubscription db shop).1
  let subscription := (getOrCreateSubscription db shop).2
  let limit := jsOrNum (planLimits subscription.planName) 20
  let currentUsage := getUsageForCurrentMonth db1.usageRecords now shop (some usageType)
  (db1,
    { isWithinLimit := limit == -1 || decide (currentUsage < limit)
      currentUsage := currentUsage
      limit := limit
      planName := subscription.planName })

/-! ## `UsageService` (src/app/services/usage.server.ts)

The second, Prisma-backed implementation.  `trackUsage` and
`getUsageForCurrentMonth` are textually the same computation; the plan
limit table differs. -/
/-- The `planLimits` object inside `checkUsageLimit` of usage.server.ts. -/
def planLimitsServer (planName : String) : Option Int :=
  if planName == "Free Plan" then some 20
  else if planName == "Pro Plan" then some 10000
  else if planName == "Enterprise Plan" then some (-1)
  else none

/-- `checkUsageLimit` of src/app/services/usage.server.ts. -/
def checkUsageLimitServer (db : DB) (now : JsDate) (shop : String)
    (usageType : String := "chat_query") : DB × UsageLimitCheck :=
  let db1 := (getOrCreateSubscription db shop).1
  let subscription := (getOrCreateSubscription db shop).2
  let limit := jsOrNum (planLimitsServer subscription.planName) 20
  let currentUsage := getUsageForCurrentMonth db1.usageRecords now shop (some usageType)
  (db1,
    { isWithinLimit := limit == -1 || decide (currentUsage < limit)
      currentUsage := currentUsage
      limit := limit
      planName := subscription.planName })

/-! ## Concrete data for witnesses -/
def nowW : JsDate := ⟨2024, 0, 20, 0⟩

def dbW : DB :=
  { subscription := some ⟨"sub0", "shop1", "Free Plan", "active"⟩
    usageRecords :=
      [{ shop := "shop1", subscriptionId := "sub0", userId := none,
         usageType := "chat_query", count := 5, date := ⟨2024, 0, 15, 0⟩,
         metadata := none },
       { shop := "shop1", subscriptionId := "sub0", userId := none,
         usageType := "chat_query", count := 3, date := ⟨2024, 1, 2, 0⟩,
         metadata := none },
       { shop := "shop1", subscriptionId := "sub0", userId := none,
         usageType := "api_call", count := 2, date := ⟨2024, 0, 10, 0⟩,
         metadata := none }]
    messages := []
    nextSubId := 1
    nextMsgId := 0 }

def dbPro : DB :=
  { subscription := some ⟨"sub0", "shop1", "Pro Plan", "active"⟩
    usageRecords := []
    messages := []
    nextSubId := 1
    nextMsgId := 0 }

def dataNeg : UsageData :=
  { shop := "shop1", userId := none, usageType := "chat_query",
    count := some (-5), metadata := none }

def dataOne : UsageData :=
  { shop := "shop1", userId := none, usageType := "chat_query",
    count := none, metadata := none }

/-- A shop with one usage record timestamped 31 January 2024 at 12:00
(noon of the last day of the month). -/
def dbLastDay : DB :=
  { subscription := some ⟨"sub0", "shop1", "Free Plan", "active"⟩
    usageRecords :=
      [{ shop := "shop1", subscriptionId := "sub0", userId := none,
         usageType := "chat_query", count := 5,
         date := ⟨2024, 0, 31, 43200000⟩, metadata := none }]
    messages := []
    nextSubId := 1
    nextMsgId := 0 }

/-! ## AI module data model (src/app/modules/ai/ai.types.ts)

GraphQL execution results (`any` in TypeScript) are modelled by a JSON
value type; `JSON`-level object keys drive `determineOperationFromResult`. -/
inductive JsonValue where
  | null
  | str (s : String)
  | num (n : Int)
  | obj (fields : List (String × JsonValue))
  | arr (elems : List JsonValue)
deriving Repr

/-- `ShopifyOperation` (ai.types.ts):
`"products" | "orders" | "customers" | "collections"`. -/
inductive ShopifyOperation where
  | products
  | orders
  | customers
  | collections
deriving DecidableEq, Repr

/-- A `{ name, description }` entry of the schema info. -/
structure RelevantItem where
  name : String
  description : String
deriving DecidableEq, Repr

/-- `SchemaInfo` returned by `dal.getSchemaInfo`. -/
structure SchemaInfo where
  queries : List RelevantItem
  mutations : List RelevantItem
deriving Repr

/-- Result of `IAIExternal.buildQuery`: a query string and the optional
`variables` field (only ever `{ first: 10 }`, modelled as an association
list; named `vars` because `variables` is reserved in Lean). -/
structure BuildResult where
  query : String
  vars : Option (List (String × Int))
deriving DecidableEq, Repr

/-- `QueryResult` (ai.types.ts). -/
structure QueryResult where
  query : String
  explanation : String
  executionResult : Option JsonValue
  summary : String
  intent : IntentType
deriving Repr

/-- The dependencies of `AIService` (`IAIDal` and `IAIExternal`): each
asynchronous call is an oracle returning `Except`, `.error` standing for a
thrown/rejected promise. -/
structure AIEnv where
  getSchemaInfo : Except String SchemaInfo
  determineRelevantQueries :
    String → List RelevantItem → Except String (List RelevantItem)
  buildQuery : String → List RelevantItem → Except String BuildResult
  determineRelevantMutations :
    String → List RelevantItem → Except String (List RelevantItem)
  executeGraphQLQuery : String → Except String JsonValue
  generateSummary :
    JsonValue → ShopifyOperation → String → Except String String

/-- `AIService.determineOperationFromResult`: non-objects (and `null`)
fall back to `products`; otherwise the first of
products/orders/customers/collections appearing among the keys, else
`products`. -/
def determineOperationFromResult (result : JsonValue) : ShopifyOperation :=
  match result with
  | .obj fields =>
    let keys := fields.map Prod.fst
    if keys.contains "products" then .products
    else if keys.contains "orders" then .orders
    else if keys.contains "customers" then .customers
    else if keys.contains "collections" then .collections
    else .products
  | _ => .products

/-! ## `AIService.getMockData`: the hard-coded fallback data -/
def mockProductsResult : JsonValue :=
  .obj [("products", .obj [("edges", .arr
    [.obj [("node", .obj
      [("id", .str "gid://shopify/Product/1"),
       ("title", .str "Awesome T-Shirt"),
       ("status", .str "ACTIVE"),
       ("totalInventory", .num 50),
       ("vendor", .str "Cool Brand"),
       ("createdAt", .str "2024-01-15T10:00:00Z")])],
     .obj [("node", .obj
      [("id", .str "gid://shopify/Product/2"),
       ("title", .str "Super Sneakers"),
       ("status", .str "ACTIVE"),
       ("totalInventory", .num 25),
       ("vendor", .str "Shoe Co"),
       ("createdAt", .str "2024-01-20T15:30:00Z")])],
     .obj [("node", .obj
      [("id", .str "gid://shopify/Product/3"),
       ("title", .str "Classic Jeans"),
       ("status", .str "DRAFT"),
       ("totalInventory", .num 0),
       ("vendor", .str "Denim Inc"),
       ("createdAt", .str "2024-02-01T09:15:00Z")])]])])]

def mockProductsSummary : String :=
  "You have **3 products** in your store. **2 are active** and **1 is a draft**. Most items have good inventory levels."

def mockOrdersResult : JsonValue :=
  .obj [("orders", .obj [("edges", .arr
    [.obj [("node", .obj
      [("id", .str "gid://shopify/Order/1001"),
       ("name", .str "#1001"),
       ("displayFinancialStatus", .str "PAID"),
       ("fulfillmentStatus", .str "FULFILLED"),
       ("createdAt", .str "2024-12-01T14:30:00Z")])],
     .obj [("node", .obj
      [("id", .str "gid://shopify/Order/1002"),
       ("name", .str "#1002"),
       ("displayFinancialStatus", .str "PENDING"),
       ("fulfillmentStatus", .str "UNFULFILLED"),
       ("createdAt", .str "2024-12-02T09:20:00Z")])]])])]

def mockOrdersSummary : String :=
  "You have **2 recent orders**. **1 order is paid and fulfilled** and **1 order needs attention**."

def mockCustomersResult : JsonValue :=
  .obj [("customers", .obj [("edges", .arr
    [.obj [("node", .obj
      [("id", .str "gid://shopify/Customer/501"),
       ("displayName", .str "John Smith"),
       ("email", .str "john@example.com"),
       ("phone", .str "+1-555-0123"),
       ("createdAt", .str "2024-11-15T12:00:00Z")])]])])]

def mockCustomersSummary : String :=
  "You have **1 customer** in your database. Your customer base is growing steadily."

def mockCollectionsResult : JsonValue :=
  .obj [("collections", .obj [("edges", .arr
    [.obj [("node", .obj
      [("id", .str "gid://shopify/Collection/301"),
       ("title", .str "Summer Collection"),
       ("handle", .str "summer-collection"),
       ("description", .str "Hot summer styles"),
       ("createdAt", .str "2024-05-01T08:00:00Z")])]])])]

def mockCollectionsSummary : String :=
  "You have **1 collection** organizing your products. Collections help customers find what they\x27re looking for."

structure MockDataResult where
  executionResult : JsonValue
  summary : String
deriving Repr

/-- `AIService.getMockData`. -/
def getMockData (operation : ShopifyOperation) : MockDataResult :=
  match operation with
  | .products => ⟨mockProductsResult, mockProductsSummary⟩
  | .orders => ⟨mockOrdersResult, mockOrdersSummary⟩
  | .customers => ⟨mockCustomersResult, mockCustomersSummary⟩
  | .collections => ⟨mockCollectionsResult, mockCollectionsSummary⟩

/-- `AIService.handleError`: the fixed error result (the message and error
arguments are ignored by the code). -/
def handleError (message : String) : QueryResult :=
  { query := ""
    explanation := "An error occurred while processing your request."
    executionResult := none
    summary := "I\x27m having trouble processing your request. Please try again with a different query."
    intent := .message }

/-- The three canned responses of `handleMessage`. -/
def messageResponses : List String :=
  ["I can help you with your store operations. Try asking me specific questions about your products, orders, customers, or other store data!",
   "What would you like to know about your store? I can help you find products, check orders, or analyze customer data.",
   "Feel free to ask me about your store data using natural language. For example: \x27show me my recent orders\x27 or \x27find products with low inventory\x27."]

/-- `AIService.handleMessage`; `Math.floor(Math.random() * 3)` is modelled
by the `rand` parameter. -/
def handleMessage (rand : Fin 3) (message : String) : QueryResult :=
  { query := ""
    explanation := "This appears to be a general message rather than a specific store query."
    executionResult := none
    summary := messageResponses.get ⟨rand.1, rand.2⟩
    intent := .message }

/-- Steps 1-3 of `handleQuery` (the region guarded by the outer
`try`/`catch` before execution): schema info, relevant queries, query
generation. -/
def stage1 (env : AIEnv) (message : String) : Except String BuildResult := do
  let schemaInfo ← env.getSchemaInfo
  let relevantQueries ← env.determineRelevantQueries message schemaInfo.queries
  env.buildQuery message relevantQueries

/-- The inner `try` of `handleQuery`: execute the query, derive the
operation, generate a summary. -/
def execStage (env : AIEnv) (query message : String) :
    Except String (JsonValue × String) := do
  let executionResult ← env.executeGraphQLQuery query
  let operation := determineOperationFromResult executionResult
  let summary ← env.generateSummary executionResult operation message
  pure (executionResult, summary)

/-- `AIService.handleQuery`.  Besides the `QueryResult` it returns the
list of queries passed to `dal.executeGraphQLQuery`, used to state that
the mutation path never executes anything. -/
def handleQuery (env : AIEnv) (message : String) : QueryResult × List String :=
  match stage1 env message with
  | .error _ => (handleError message, [])
  | .ok bq =>
    match execStage env bq.query message with
    | .ok (executionResult, summary) =>
      ({ query := bq.query
         explanation := "Generated a GraphQL query based on: \"" ++ message ++ "\""
         executionResult := some executionResult
         summary := summary
         intent := .query }, [bq.query])
    | .error _ =>
      ({ query := bq.query
         explanation := "Generated a GraphQL query based on: \"" ++ message ++ "\""
         executionResult := some (getMockData .products).executionResult
         summary := (getMockData .products).summary
         intent := .query }, [bq.query])

/-- The guarded region of `handleMutation`: schema info and relevant
mutations. -/
def mutStage (env : AIEnv) (message : String) :
    Except String (List RelevantItem) := do
  let schemaInfo ← env.getSchemaInfo
  env.determineRelevantMutations message schemaInfo.mutations

/-- `AIService.handleMutation`. -/
def handleMutation (env : AIEnv) (message : String) :
    QueryResult × List String :=
  match mutStage env message with
  | .error _ => (handleError message, [])
  | .ok relevantMutations =>
    ({ query := ""
       explanation := "Mutation operations are not yet implemented for safety reasons. Found " ++
         toString relevantMutations.length ++
         " relevant mutations. This feature is coming soon!"
       executionResult := none
       summary := "I understand you want to make changes to your store data. For now, I can only read and analyze your store information. Mutation operations will be available in a future update."
       intent := .mutation }, [])

/-- `AIService.processMessage`. -/
def processMessage (env : AIEnv) (rand : Fin 3) (message : String) :
    QueryResult × List String :=
  match identifyIntent message with
  | .query => handleQuery env message
  | .mutation => handleMutation env message
  | .message => (handleMessage rand message, [])

def envFail : AIEnv :=
  { getSchemaInfo := .error "schema introspection failed"
    determineRelevantQueries := fun _ _ => .error "unavailable"
    buildQuery := fun _ _ => .error "unavailable"
    determineRelevantMutations := fun _ _ => .error "unavailable"
    executeGraphQLQuery := fun _ => .error "unavailable"
    generateSummary := fun _ _ _ => .error "unavailable" }

def envExecFail : AIEnv :=
  { getSchemaInfo := .ok { queries := [⟨"products", "List the products"⟩], mutations := [] }
    determineRelevantQueries := fun _ queries => .ok queries
    buildQuery := fun _ _ => .ok { query := "query GetProducts", vars := some [("first", 10)] }
    determineRelevantMutations := fun _ _ => .ok []
    executeGraphQLQuery := fun _ => .error "network down"
    generateSummary := fun _ _ _ => .error "unavailable" }

def envMutFail : AIEnv :=
  { getSchemaInfo := .error "introspection failed"
    determineRelevantQueries := fun _ _ => .error "unavailable"
    buildQuery := fun _ _ => .error "unavailable"
    determineRelevantMutations := fun _ _ => .error "unavailable"
    executeGraphQLQuery := fun _ => .error "unavailable"
    generateSummary := fun _ _ _ => .error "unavailable" }

def mutListW : List RelevantItem :=
  [⟨"productDelete", "Deletes a product"⟩, ⟨"productUpdate", "Updates a product"⟩]

def envMutOk : AIEnv :=
  { getSchemaInfo := .ok { queries := [], mutations := mutListW }
    determineRelevantQueries := fun _ _ => .ok []
    buildQuery := fun _ _ => .error "unavailable"
    determineRelevantMutations := fun _ mutations => .ok mutations
    executeGraphQLQuery := fun _ => .error "unavailable"
    generateSummary := fun _ _ _ => .error "unavailable" }

/-! ## `AIExternal.buildQuery` (src/app/modules/ai/ai.external.ts) -/
/-- `operation.charAt(0).toUpperCase() + operation.slice(1)`. -/
def capFirst (s : String) : String :=
  match s.toList with
  | [] => ""
  | c :: cs => String.mk (c.toUpper :: cs)

/-- The string name of a `ShopifyOperation`. -/
def opName (op : ShopifyOperation) : String :=
  match op with
  | .products => "products"
  | .orders => "orders"
  | .customers => "customers"
  | .collections => "collections"

/-- The string-templated fallback query of `buildQuery` (braces written
with escapes). -/
def fallbackQuery (operation : String) : String :=
  "#graphql\n          query Get" ++ capFirst operation ++
  " \x7b\n            " ++ operation ++
  "(first: 10) \x7b\n              edges \x7b\n                node \x7b\n                  id\n                  ... on Product \x7b\n                    title\n                    status\n                    totalInventory\n                  \x7d\n                  ... on Order \x7b\n                    name\n                    displayFinancialStatus\n                    fulfillmentStatus\n                  \x7d\n                  ... on Customer \x7b\n                    displayName\n                    email\n                  \x7d\n                  ... on Collection \x7b\n                    title\n                    handle\n                  \x7d\n                  createdAt\n                \x7d\n              \x7d\n            \x7d\n          \x7d\n        "

/-- `AIExternal.buildQuery`.  `llmResult` models the `generateText` call:
`.error` when the AI SDK is unavailable (the code then throws before the
call) or when the call itself rejects.  The `catch` block then evaluates
`this.determineOperationFromQueries(relevantQueries, message)`, but no
method of that name is defined anywhere in the repository, so the catch
block itself throws a `TypeError` that propagates out of `buildQuery`
instead of the intended `fallbackQuery` template being returned. -/
def buildQuery (llmResult : Except String String) (message : String)
    (relevantQueries : List RelevantItem) : Except String BuildResult :=
  match llmResult with
  | .ok text => .ok { query := text.trim, vars := some [("first", 10)] }
  | .error _ =>
    .error "TypeError: this.determineOperationFromQueries is not a function"

/-! ## `GraphQLIntrospectionService`
(src/app/services/graphql-introspection.server.ts)

The two `Map`s are association lists; `Date.now()` is the `now`
parameter (milliseconds); the introspection request is an `Except`-valued
oracle. -/
/-- Parsed introspection result (only identity matters to the cache). -/
structure GQLSchema where
  types : List String
  queryTypeName : String
deriving DecidableEq, Repr

/-- `Map.prototype.get`. -/
def alistGet {α : Type} (l : List (String × α)) (k : String) : Option α :=
  (l.find? (fun p => p.1 == k)).map Prod.snd

/-- `Map.prototype.set` (replaces any entry with the same key). -/
def alistSet {α : Type} (l : List (String × α)) (k : String) (v : α) :
    List (String × α) :=
  (k, v) :: l.filter (fun p => p.1 != k)

/-- `CACHE_DURATION = 1000 * 60 * 30` (30 minutes in milliseconds). -/
def CACHE_DURATION : Int := 1000 * 60 * 30

structure CacheState where
  schemaCache : List (String × GQLSchema)
  cacheExpiry : List (String × Int)
deriving DecidableEq, Repr

/-- Result of `getSchema`: the schema, the updated service state, and
whether introspection was performed. -/
structure GetSchemaResult where
  schema : GQLSchema
  state : CacheState
  introspected : Bool
deriving DecidableEq, Repr

/-- The `try` block of `getSchema`: run introspection, store the parsed
schema and its expiry `now + CACHE_DURATION`; a failed introspection
propagates (`throw error`). -/
def introspectAndStore (st : CacheState) (now : Int)
    (introspection : Except String GQLSchema) (cacheKey : String) :
    Except String GetSchemaResult :=
  match introspection with
  | .error err => .error err
  | .ok schema =>
    .ok { schema := schema
          state := { schemaCache := alistSet st.schemaCache cacheKey schema
                     cacheExpiry := alistSet st.cacheExpiry cacheKey
                       (now + CACHE_DURATION) }
          introspected := true }

/-- `GraphQLIntrospectionService.getSchema`: return the cached schema when
`cached && expiry && Date.now() < expiry` (a number is truthy iff nonzero),
otherwise introspect and store. -/
def getSchema (st : CacheState) (now : Int)
    (introspection : Except String GQLSchema) (cacheKey : String) :
    Except String GetSchemaResult :=
  match alistGet st.schemaCache cacheKey, alistGet st.cacheExpiry cacheKey with
  | some cached, some expiry =>
    if expiry != 0 && decide (now < expiry) then
      .ok { schema := cached, state := st, introspected := false }
    else
      introspectAndStore st now introspection cacheKey
  | _, _ => introspectAndStore st now introspection cacheKey

def stC6 : CacheState :=
  { schemaCache := [("shopify_admin", ⟨["Product", "Order"], "QueryRoot"⟩)]
    cacheExpiry := [("shopify_admin", 1000)] }

/-! ## `ChatService.saveMessage` (src/app/modules/chat/chat.service.ts) -/
/-- `ChatMessageData` (chat.types.ts); the arbitrary `metadata` object is
modelled by its already-stringified form. -/
structure ChatMessageData where
  shop : String
  userId : Option String
  message : String
  role : String
  conversationId : Option String
  metadata : Option String
deriving DecidableEq, Repr

/-- `dal.createMessage`: insert a chat message row; the generated row id
comes from the `nextMsgId` counter. -/
def createMessage (db : DB) (data : ChatMessageData) : DB × ChatMessage :=
  let m : ChatMessage :=
    { id := "msg" ++ toString db.nextMsgId
      shop := data.shop
      userId := data.userId
      message := data.message
      role := data.role
      conversationId := data.conversationId
      metadata := data.metadata }
  ({ db with messages := db.messages ++ [m], nextMsgId := db.nextMsgId + 1 }, m)

/-- `ChatService.saveMessage`: for `role === "user"` check the usage limit
first and throw when exceeded (the subscription lookup/creation performed
inside `checkUsageLimit` has already happened when the error is thrown,
hence the state component of the error case); otherwise create the message
and, for user messages, track one `chat_query` usage referencing it. -/
def saveMessage (db : DB) (now : JsDate) (data : ChatMessageData) :
    DB × Except String ChatMessage :=
  if data.role == "user" then
    let db1 := (checkUsageLimit db now data.shop "chat_query").1
    let usageCheck := (checkUsageLimit db now data.shop "chat_query").2
    if !usageCheck.isWithinLimit then
      (db1, .error ("Usage limit exceeded. Current usage: " ++
        toString usageCheck.currentUsage ++ "/" ++ toString usageCheck.limit ++
        " for " ++ usageCheck.planName))
    else
      let db2 := (createMessage db1 data).1
      let m := (createMessage db1 data).2
      let db3 := (trackUsage db2 now
        { shop := data.shop
          userId := data.userId
          usageType := "chat_query"
          count := none
          metadata := some { messageId := some m.id
                             conversationId := data.conversationId } }).1
      (db3, .ok m)
  else
    ((createMessage db data).1, .ok (createMessage db data).2)

def dataU : ChatMessageData :=
  { shop := "shop1", userId := none, message := "show me my products",
    role := "user", conversationId := some "conv1", metadata := none }

/-! ## Theorems -/

/-! ## Correctness of the substring check -/
theorem hasPre_iff (pat l : List Char) :
    hasPre pat l = true ↔ ∃ r, l = pat ++ r := by
  induction pat generalizing l with
  | nil => simp [hasPre]
  | cons p ps ih =>
    cases l with
    | nil => simp [hasPre]
    | cons t ts =>
      simp only [hasPre, Bool.and_eq_true, beq_iff_eq, ih, List.cons_append,
        List.cons.injEq]
      constructor
      · rintro ⟨rfl, r, rfl⟩; exact ⟨r, rfl, rfl⟩
      · rintro ⟨r, rfl, rfl⟩; exact ⟨rfl, r, rfl⟩

theorem charsContain_iff (pat l : List Char) :
    charsContain pat l = true ↔ ∃ pre post, l = pre ++ pat ++ post := by
  induction l with
  | nil =>
    simp only [charsContain, hasPre_iff]
    constructor
    · rintro ⟨r, h⟩
      exact ⟨[], r, by simpa using h⟩
    · rintro ⟨pre, post, h⟩
      refine ⟨post, ?_⟩
      have hpre : pre = [] := by
        cases pre with
        | nil => rfl
        | cons a as => simp at h
      subst hpre
      simpa using h
  | cons t ts ih =>
    simp only [charsContain, Bool.or_eq_true, hasPre_iff, ih]
    constructor
    · rintro (⟨r, h⟩ | ⟨pre, post, h⟩)
      · exact ⟨[], r, by simpa using h⟩
      · exact ⟨t :: pre, post, by simp [h]⟩
    · rintro ⟨pre, post, h⟩
      cases pre with
      | nil => exact Or.inl ⟨post, by simpa using h⟩
      | cons a as =>
        simp only [List.cons_append, List.cons.injEq] at h
        exact Or.inr ⟨as, post, h.2⟩

theorem strContains_iff (s pat : String) :
    strContains s pat = true ↔ IsSubstr pat s := by
  simp only [strContains, IsSubstr, charsContain_iff]

/-- C2 -- `AIService.identifyIntent` lowercases the message, returns
`mutation` iff one of the 14 mutation keywords occurs as a substring;
otherwise `query` iff one of the 19 query keywords occurs; otherwise
`message`, mutation keywords taking precedence. -/
theorem identifyIntent_characterization (m : String) :
    (identifyIntent m = .mutation ↔
      ∃ k ∈ mutationKeywords, IsSubstr k (jsToLower m)) ∧
    (identifyIntent m = .query ↔
      (¬ ∃ k ∈ mutationKeywords, IsSubstr k (jsToLower m)) ∧
      ∃ k ∈ queryKeywords, IsSubstr k (jsToLower m)) ∧
    (identifyIntent m = .message ↔
      (¬ ∃ k ∈ mutationKeywords, IsSubstr k (jsToLower m)) ∧
      ¬ ∃ k ∈ queryKeywords, IsSubstr k (jsToLower m)) ∧
    mutationKeywords.length = 14 ∧ queryKeywords.length = 19 := by
  have hmut : (mutationKeywords.any fun k => strContains (jsToLower m) k) = true ↔
      ∃ k ∈ mutationKeywords, IsSubstr k (jsToLower m) := by
    simp only [List.any_eq_true, strContains_iff]
  have hqry : (queryKeywords.any fun k => strContains (jsToLower m) k) = true ↔
      ∃ k ∈ queryKeywords, IsSubstr k (jsToLower m) := by
    simp only [List.any_eq_true, strContains_iff]
  unfold identifyIntent
  by_cases h1 : (mutationKeywords.any fun k => strContains (jsToLower m) k) = true
  · simp only [h1, if_true]
    exact ⟨iff_of_true trivial (hmut.mp h1),
      iff_of_false (by intro h; cases h) (fun hc => hc.1 (hmut.mp h1)),
      iff_of_false (by intro h; cases h) (fun hc => hc.1 (hmut.mp h1)),
      by decide, by decide⟩
  · have h1' : ¬ ∃ k ∈ mutationKeywords, IsSubstr k (jsToLower m) := fun hc =>
      h1 (hmut.mpr hc)
    simp only [Bool.not_eq_true] at h1
    simp only [h1, Bool.false_eq_true, if_false]
    by_cases h2 : (queryKeywords.any fun k => strContains (jsToLower m) k) = true
    · simp only [h2, if_true]
      exact ⟨iff_of_false (by intro h; cases h) h1',
        iff_of_true trivial ⟨h1', hqry.mp h2⟩,
        iff_of_false (by intro h; cases h) (fun hc => hc.2 (hqry.mp h2)),
        by decide, by decide⟩
    · have h2' : ¬ ∃ k ∈ queryKeywords, IsSubstr k (jsToLower m) := fun hc =>
        h2 (hqry.mpr hc)
      simp only [Bool.not_eq_true] at h2
      simp only [h2, Bool.false_eq_true, if_false]
      exact ⟨iff_of_false (by intro h; cases h) h1',
        iff_of_false (by intro h; cases h) (fun hc => h2' hc.2),
        iff_of_true trivial ⟨h1', h2'⟩,
        by decide, by decide⟩

/-! ## Lemmas about the usage services -/
theorem getOrCreateSubscription_records (db : DB) (shop : String) :
    (getOrCreateSubscription db shop).1.usageRecords = db.usageRecords := by
  unfold getOrCreateSubscription
  cases db.subscription <;> rfl

theorem getOrCreateSubscription_planName (db : DB) (shop : String)
    (s : Subscription) (h : db.subscription = some s) :
    (getOrCreateSubscription db shop).2.planName = s.planName := by
  unfold getOrCreateSubscription
  rw [h]

/-- A valid date lies in the closed range
`[startOfMonth now, endOfMonth now]` iff its year and month are those of
`now` and it is either before the last day of the month or timestamped
exactly at midnight of that day (`endOfMonth` is the last day at
00:00:00, so later timestamps on the last day fall outside the range). -/
theorem dateRange_iff (now d : JsDate) (hd : ValidDate d) :
    (dateLE (startOfMonth now) d && dateLE d (endOfMonth now)) = true ↔
      d.year = now.year ∧ d.month = now.month ∧
        (d.day < daysInMonth now.year now.month ∨ d.msOfDay = 0) := by
  obtain ⟨hm, hd1, hd2, hms⟩ := hd
  simp only [dateLE, startOfMonth, endOfMonth, Bool.and_eq_true,
    Bool.or_eq_true, decide_eq_true_eq, beq_iff_eq]
  constructor
  · intro h
    omega
  · rintro ⟨hy, hmn, hdm⟩
    rw [hy, hmn] at hd2
    omega

theorem foldl_add_count (l : List UsageRecord) (acc : Int) :
    l.foldl (fun total r => total + r.count) acc =
      acc + (l.map (fun r => r.count)).sum := by
  induction l generalizing acc with
  | nil => simp
  | cons a as ih =>
    simp only [List.foldl_cons, List.map_cons, List.sum_cons, ih]
    ring

/-- On lists of valid-dated records the `where` filter of
`getUsageForCurrentMonth` agrees with the code's month-window predicate:
same year and month, and before the last day or exactly at its
midnight. -/
theorem usageWhere_eq_window (records : List UsageRecord) (now : JsDate)
    (shop usageType : String)
    (hvalid : ∀ r ∈ records, ValidDate r.date) :
    records.filter (usageWhere shop (some usageType) now) =
      records.filter (fun r =>
        r.shop == shop && r.usageType == usageType &&
          (r.date.year == now.year && r.date.month == now.month &&
            (decide (r.date.day < daysInMonth now.year now.month) ||
              r.date.msOfDay == 0))) := by
  apply List.filter_congr
  intro r hr
  have hiff := dateRange_iff now r.date (hvalid r hr)
  rw [Bool.eq_iff_iff]
  rw [Bool.and_eq_true] at hiff
  simp only [usageWhere, Bool.and_eq_true, Bool.or_eq_true, beq_iff_eq,
    decide_eq_true_eq]
  tauto

theorem jsOrNum_planLimits (p : String) :
    jsOrNum (planLimits p) 20 =
      (if p = "Free Plan" then 20
       else if p = "Pro Plan" then 1000
       else if p = "Enterprise Plan" then 10000
       else 20) := by
  unfold planLimits jsOrNum
  by_cases h1 : p = "Free Plan" <;> by_cases h2 : p = "Pro Plan" <;>
    by_cases h3 : p = "Enterprise Plan" <;> simp [h1, h2, h3]

/-- C1 counterexample -- a usage record timestamped 31 January at noon
lies inside the current calendar month, but outside the code's
`lte endOfMonth` bound (31 January 00:00:00): `checkUsageLimit` reports
`currentUsage` 0 while the calendar-month sum of matching record counts
is 5, so `currentUsage` is not the calendar-month sum the claim
states. -/
theorem checkUsageLimit_not_calendar_month :
    (∀ r ∈ dbLastDay.usageRecords, ValidDate r.date) ∧
    (checkUsageLimit dbLastDay ⟨2024, 0, 20, 0⟩ "shop1"
      "chat_query").2.currentUsage = 0 ∧
    ((dbLastDay.usageRecords.filter (fun r =>
        r.shop == "shop1" && r.usageType == "chat_query" &&
          (r.date.year == (2024 : Int) && r.date.month == (0 : Nat)))).map
      (fun r => r.count)).sum = 5 := by
  decide

/-- C1 amended -- `UsageService.checkUsageLimit` (modules version)
computes `currentUsage` as the sum of the counts of the shop's usage
records of the given type inside the code's month window — same calendar
year and month, excluding records on the last day of the month
timestamped after 00:00:00, because `new Date(y, m + 1, 0)` is the last
day at midnight — takes the limit from the plan table (Free Plan 20, Pro
Plan 1000, Enterprise Plan 10000, unknown plans 20), and
`isWithinLimit = true` iff `limit = -1` or `currentUsage < limit`,
`currentUsage` and `limit` being the returned fields themselves. -/
theorem checkUsageLimit_spec (db : DB) (now : JsDate) (shop usageType : String)
    (hvalid : ∀ r ∈ db.usageRecords, ValidDate r.date) :
    ((checkUsageLimit db now shop usageType).2.currentUsage =
      ((db.usageRecords.filter (fun r =>
          r.shop == shop && r.usageType == usageType &&
            (r.date.year == now.year && r.date.month == now.month &&
              (decide (r.date.day < daysInMonth now.year now.month) ||
                r.date.msOfDay == 0)))).map
        (fun r => r.count)).sum) ∧
    ((checkUsageLimit db now shop usageType).2.limit =
      (if (getOrCreateSubscription db shop).2.planName = "Free Plan" then 20
       else if (getOrCreateSubscription db shop).2.planName = "Pro Plan" then 1000
       else if (getOrCreateSubscription db shop).2.planName = "Enterprise Plan" then 10000
       else 20)) ∧
    ((checkUsageLimit db now shop usageType).2.isWithinLimit = true ↔
      (checkUsageLimit db now shop usageType).2.limit = -1 ∨
        (checkUsageLimit db now shop usageType).2.currentUsage <
          (checkUsageLimit db now shop usageType).2.limit) := by
  refine ⟨?_, ?_, ?_⟩
  · show getUsageForCurrentMonth (getOrCreateSubscription db shop).1.usageRecords
        now shop (some usageType) = _
    rw [getOrCreateSubscription_records]
    unfold getUsageForCurrentMonth
    rw [foldl_add_count, usageWhere_eq_window db.usageRecords now shop usageType hvalid]
    simp
  · show jsOrNum (planLimits (getOrCreateSubscription db shop).2.planName) 20 = _
    exact jsOrNum_planLimits _
  · show (jsOrNum (planLimits (getOrCreateSubscription db shop).2.planName) 20 == -1 ||
        decide (getUsageForCurrentMonth (getOrCreateSubscription db shop).1.usageRecords
            now shop (some usageType) <
          jsOrNum (planLimits (getOrCreateSubscription db shop).2.planName) 20)) = true ↔
      jsOrNum (planLimits (getOrCreateSubscription db shop).2.planName) 20 = -1 ∨
        getUsageForCurrentMonth (getOrCreateSubscription db shop).1.usageRecords
            now shop (some usageType) <
          jsOrNum (planLimits (getOrCreateSubscription db shop).2.planName) 20
    simp only [Bool.or_eq_true, decide_eq_true_eq, beq_iff_eq]

theorem checkUsageLimit_spec_witness :
    (∀ r ∈ dbW.usageRecords, ValidDate r.date) ∧
    (((checkUsageLimit dbW nowW "shop1" "chat_query").2.currentUsage =
      ((dbW.usageRecords.filter (fun r =>
          r.shop == "shop1" && r.usageType == "chat_query" &&
            (r.date.year == nowW.year && r.date.month == nowW.month &&
              (decide (r.date.day < daysInMonth nowW.year nowW.month) ||
                r.date.msOfDay == 0)))).map
        (fun r => r.count)).sum) ∧
    ((checkUsageLimit dbW nowW "shop1" "chat_query").2.limit =
      (if (getOrCreateSubscription dbW "shop1").2.planName = "Free Plan" then 20
       else if (getOrCreateSubscription dbW "shop1").2.planName = "Pro Plan" then 1000
       else if (getOrCreateSubscription dbW "shop1").2.planName = "Enterprise Plan" then 10000
       else 20)) ∧
    ((checkUsageLimit dbW nowW "shop1" "chat_query").2.isWithinLimit = true ↔
      (checkUsageLimit dbW nowW "shop1" "chat_query").2.limit = -1 ∨
        (checkUsageLimit dbW nowW "shop1" "chat_query").2.currentUsage <
          (checkUsageLimit dbW nowW "shop1" "chat_query").2.limit)) :=
  ⟨by decide, checkUsageLimit_spec dbW nowW "shop1" "chat_query" (by decide)⟩

/-! ## C8: the two `checkUsageLimit` implementations -/
theorem planLimits_agree (p : String) (h1 : p ≠ "Pro Plan")
    (h2 : p ≠ "Enterprise Plan") : planLimits p = planLimitsServer p := by
  unfold planLimits planLimitsServer
  by_cases h3 : p = "Free Plan" <;> simp [h3, h1, h2]

/-- C8 counterexample -- for a shop on the Pro Plan the two
`checkUsageLimit` implementations return different results: the module
version reports limit 1000, the server version limit 10000. -/
theorem checkUsageLimit_implementations_differ :
    (checkUsageLimit dbPro nowW "shop1" "chat_query").2 ≠
      (checkUsageLimitServer dbPro nowW "shop1" "chat_query").2 := by
  decide

/-- C8 amended -- the two `checkUsageLimit` implementations always agree
on `currentUsage`, `planName` and the database effect, and return equal
results whenever the plan is not Pro Plan and not Enterprise Plan (in
particular for Free Plan and every unknown plan name); on Pro Plan the
limits are 1000 vs 10000 and on Enterprise Plan 10000 vs -1. -/
theorem checkUsageLimit_agreement (db : DB) (now : JsDate)
    (shop usageType : String) :
    ((checkUsageLimit db now shop usageType).2.currentUsage =
      (checkUsageLimitServer db now shop usageType).2.currentUsage) ∧
    ((checkUsageLimit db now shop usageType).2.planName =
      (checkUsageLimitServer db now shop usageType).2.planName) ∧
    ((checkUsageLimit db now shop usageType).1 =
      (checkUsageLimitServer db now shop usageType).1) ∧
    ((getOrCreateSubscription db shop).2.planName ≠ "Pro Plan" →
      (getOrCreateSubscription db shop).2.planName ≠ "Enterprise Plan" →
      checkUsageLimit db now shop usageType =
        checkUsageLimitServer db now shop usageType) ∧
    ((getOrCreateSubscription db shop).2.planName = "Pro Plan" →
      (checkUsageLimit db now shop usageType).2.limit = 1000 ∧
      (checkUsageLimitServer db now shop usageType).2.limit = 10000) ∧
    ((getOrCreateSubscription db shop).2.planName = "Enterprise Plan" →
      (checkUsageLimit db now shop usageType).2.limit = 10000 ∧
      (checkUsageLimitServer db now shop usageType).2.limit = -1) := by
  refine ⟨rfl, rfl, rfl, ?_, ?_, ?_⟩
  · intro h1 h2
    simp only [checkUsageLimit, checkUsageLimitServer]
    rw [planLimits_agree _ h1 h2]
  · intro h
    constructor
    · show jsOrNum (planLimits (getOrCreateSubscription db shop).2.planName) 20 = 1000
      rw [h]; rfl
    · show jsOrNum (planLimitsServer (getOrCreateSubscription db shop).2.planName) 20 = 10000
      rw [h]; rfl
  · intro h
    constructor
    · show jsOrNum (planLimits (getOrCreateSubscription db shop).2.planName) 20 = 10000
      rw [h]; rfl
    · show jsOrNum (planLimitsServer (getOrCreateSubscription db shop).2.planName) 20 = -1
      rw [h]; rfl

theorem checkUsageLimit_agreement_witness :
    (getOrCreateSubscription dbW "shop1").2.planName ≠ "Pro Plan" ∧
    (getOrCreateSubscription dbW "shop1").2.planName ≠ "Enterprise Plan" ∧
    checkUsageLimit dbW nowW "shop1" "chat_query" =
      checkUsageLimitServer dbW nowW "shop1" "chat_query" :=
  ⟨by decide, by decide,
    (checkUsageLimit_agreement dbW nowW "shop1" "chat_query").2.2.2.1
      (by decide) (by decide)⟩

/-! ## C10: `trackUsage` counts -/
theorem getUsage_append_one (records : List UsageRecord) (now : JsDate)
    (shop usageType : String) (r : UsageRecord)
    (hmatch : usageWhere shop (some usageType) now r = true) :
    getUsageForCurrentMonth (records ++ [r]) now shop (some usageType) =
      getUsageForCurrentMonth records now shop (some usageType) + r.count := by
  unfold getUsageForCurrentMonth
  rw [List.filter_append, List.foldl_append, foldl_add_count, foldl_add_count]
  simp [hmatch]

/-- C10 counterexample -- a `trackUsage` call whose `UsageData.count` is
-5 creates a record with count -5 (`-5 || 1` is `-5` in JavaScript), so
this call lowers the monthly usage sum by 5 instead of raising it by at
least 1. -/
theorem trackUsage_negative_count_decreases :
    (trackUsage dbW nowW dataNeg).2.count = -5 ∧
    getUsageForCurrentMonth (trackUsage dbW nowW dataNeg).1.usageRecords
        nowW "shop1" (some "chat_query") =
      getUsageForCurrentMonth dbW.usageRecords nowW "shop1"
          (some "chat_query") - 5 := by
  decide

/-- C10 amended -- `trackUsage` never records a zero-count usage record;
when `UsageData.count` is undefined or 0 the record's count is 1; and
every call whose count is undefined or nonnegative, made at a time inside
the code's month window (before the last day of the month, or at its
midnight — `endOfMonth` is the last day at 00:00:00, so a call later on
the last day creates a record the current-month query excludes),
increases the shop's monthly usage sum for that usage type by at least 1
(a negative count is stored as-is and lowers the sum). -/
theorem trackUsage_count_spec (db : DB) (now : JsDate) (data : UsageData) :
    ((trackUsage db now data).2.count ≠ 0) ∧
    ((data.count = none ∨ data.count = some 0) →
      (trackUsage db now data).2.count = 1) ∧
    (ValidDate now →
      (now.day < daysInMonth now.year now.month ∨ now.msOfDay = 0) →
      (∀ c, data.count = some c → 0 ≤ c) →
      getUsageForCurrentMonth (trackUsage db now data).1.usageRecords now
          data.shop (some data.usageType) ≥
        getUsageForCurrentMonth db.usageRecords now data.shop
            (some data.usageType) + 1) := by
  have hcount : (trackUsage db now data).2.count = jsOrNum data.count 1 := rfl
  have hrecords : (trackUsage db now data).1.usageRecords =
      db.usageRecords ++ [(trackUsage db now data).2] := by
    show (getOrCreateSubscription db data.shop).1.usageRecords ++ [_] = _
    rw [getOrCreateSubscription_records]
    rfl
  refine ⟨?_, ?_, ?_⟩
  · rw [hcount]
    unfold jsOrNum
    cases data.count with
    | none => norm_num
    | some v => by_cases hv : v = 0 <;> simp [hv]
  · intro h
    rw [hcount]
    rcases h with h | h <;> simp [h, jsOrNum]
  · intro hnow hwin hpos
    have hone : 1 ≤ jsOrNum data.count 1 := by
      unfold jsOrNum
      cases hc : data.count with
      | none => norm_num
      | some v =>
        have hv0 := hpos v hc
        by_cases hv : v = 0
        · simp [hv]
        · simp only [if_neg hv]
          omega
    have hmatch : usageWhere data.shop (some data.usageType) now
        (trackUsage db now data).2 = true := by
      have hrange := (dateRange_iff now now hnow).mpr ⟨rfl, rfl, hwin⟩
      rw [Bool.and_eq_true] at hrange
      show usageWhere data.shop (some data.usageType) now
        { shop := data.shop
          subscriptionId := (getOrCreateSubscription db data.shop).2.id
          userId := data.userId
          usageType := data.usageType
          count := jsOrNum data.count 1
          date := now
          metadata := data.metadata } = true
      simp [usageWhere, hrange.1, hrange.2]
    rw [hrecords, getUsage_append_one _ _ _ _ _ hmatch, hcount]
    omega

theorem trackUsage_count_spec_witness :
    ValidDate nowW ∧
    (nowW.day < daysInMonth nowW.year nowW.month ∨ nowW.msOfDay = 0) ∧
    ((trackUsage dbW nowW dataOne).2.count ≠ 0) ∧
    ((dataOne.count = none ∨ dataOne.count = some 0) →
      (trackUsage dbW nowW dataOne).2.count = 1) ∧
    (getUsageForCurrentMonth (trackUsage dbW nowW dataOne).1.usageRecords nowW
        dataOne.shop (some dataOne.usageType) ≥
      getUsageForCurrentMonth dbW.usageRecords nowW dataOne.shop
          (some dataOne.usageType) + 1) :=
  ⟨by decide, by decide, (trackUsage_count_spec dbW nowW dataOne).1,
    (trackUsage_count_spec dbW nowW dataOne).2.1,
    (trackUsage_count_spec dbW nowW dataOne).2.2 (by decide) (by decide)
      (fun c hc => Option.noConfusion hc)⟩

/-! ## C4, C5, C9: error handling of `processMessage` -/
/-- C4 -- within the embedding `processMessage` is a total function (no
exception escapes by construction: every `try`/`catch` is compiled to a
`match` on an `Except` value), and whenever schema lookup, relevant-query
selection or query building fails during query or mutation handling, the
result is the fixed `handleError` payload: empty query, the canned error
explanation and summary, intent `message`. -/
theorem processMessage_error_fallback (env : AIEnv) (rand : Fin 3)
    (message : String) :
    (identifyIntent message = .query → ∀ e, stage1 env message = .error e →
      processMessage env rand message =
        ({ query := ""
           explanation := "An error occurred while processing your request."
           executionResult := none
           summary := "I\x27m having trouble processing your request. Please try again with a different query."
           intent := .message }, [])) ∧
    (identifyIntent message = .mutation → ∀ e, mutStage env message = .error e →
      processMessage env rand message =
        ({ query := ""
           explanation := "An error occurred while processing your request."
           executionResult := none
           summary := "I\x27m having trouble processing your request. Please try again with a different query."
           intent := .message }, [])) := by
  constructor
  · intro hi e he
    unfold processMessage handleQuery
    simp only [hi, he]
    rfl
  · intro hi e he
    unfold processMessage handleMutation
    simp only [hi, he]
    rfl

theorem processMessage_error_fallback_witness :
    identifyIntent "show me my products" = .query ∧
    stage1 envFail "show me my products" = .error "schema introspection failed" ∧
    processMessage envFail 0 "show me my products" =
      ({ query := ""
         explanation := "An error occurred while processing your request."
         executionResult := none
         summary := "I\x27m having trouble processing your request. Please try again with a different query."
         intent := .message }, []) :=
  ⟨by decide, rfl,
    (processMessage_error_fallback envFail 0 "show me my products").1
      (by decide) "schema introspection failed" rfl⟩

/-- C5 -- when executing the generated query (or generating its summary)
fails, `handleQuery` still returns intent `query` and the generated query
string, but `executionResult` and `summary` are replaced by the fixed mock
products data — whose `edges` array holds exactly the 3 hard-coded
products — and its canned summary, for every message classified as a
query (regardless of which operation it asked about). -/
theorem handleQuery_mock_fallback (env : AIEnv) (rand : Fin 3)
    (message : String) (bq : BuildResult) :
    identifyIntent message = .query → stage1 env message = .ok bq →
    ∀ e, execStage env bq.query message = .error e →
    (processMessage env rand message =
      ({ query := bq.query
         explanation := "Generated a GraphQL query based on: \"" ++ message ++ "\""
         executionResult := some mockProductsResult
         summary := mockProductsSummary
         intent := .query }, [bq.query]) ∧
     ∃ edges, mockProductsResult =
        .obj [("products", .obj [("edges", .arr edges)])] ∧
       edges.length = 3) := by
  intro hi hok e he
  refine ⟨?_, ⟨_, rfl, rfl⟩⟩
  unfold processMessage handleQuery
  simp only [hi, hok, he]
  rfl

theorem handleQuery_mock_fallback_witness :
    identifyIntent "list my orders" = .query ∧
    stage1 envExecFail "list my orders" =
      .ok { query := "query GetProducts", vars := some [("first", 10)] } ∧
    (processMessage envExecFail 0 "list my orders" =
      ({ query := "query GetProducts"
         explanation := "Generated a GraphQL query based on: \"" ++ "list my orders" ++ "\""
         executionResult := some mockProductsResult
         summary := mockProductsSummary
         intent := .query }, ["query GetProducts"]) ∧
     ∃ edges, mockProductsResult =
        .obj [("products", .obj [("edges", .arr edges)])] ∧
       edges.length = 3) :=
  ⟨by decide, rfl,
    handleQuery_mock_fallback envExecFail 0 "list my orders"
      { query := "query GetProducts", vars := some [("first", 10)] }
      (by decide) rfl "network down" rfl⟩

/-- C9 counterexample -- "delete the old items" classifies as a mutation,
yet when schema introspection fails `processMessage` returns the
`handleError` result, whose intent is `message`, not `mutation`: the
returned shape the claim states does not hold on the error path. -/
theorem handleMutation_error_intent_not_mutation :
    identifyIntent "delete the old items" = .mutation ∧
    (processMessage envMutFail 0 "delete the old items").1.intent ≠ .mutation := by
  constructor
  · decide
  · decide

/-- C9 amended -- for every message classified as a mutation,
`processMessage` executes no GraphQL query (the execution log stays
empty) and returns an empty query string; when schema introspection and
relevant-mutation selection succeed it returns intent `mutation` with the
not-yet-implemented explanation (reporting the number of relevant
mutations) and the fixed summary; when they fail it returns the fixed
`handleError` result (intent `message`), still with an empty query and no
execution. -/
theorem handleMutation_no_execution (env : AIEnv) (rand : Fin 3)
    (message : String) :
    identifyIntent message = .mutation →
    ((processMessage env rand message).2 = [] ∧
     (processMessage env rand message).1.query = "" ∧
     (∀ rel, mutStage env message = .ok rel →
        (processMessage env rand message).1 =
          { query := ""
            explanation := "Mutation operations are not yet implemented for safety reasons. Found " ++
              toString rel.length ++ " relevant mutations. This feature is coming soon!"
            executionResult := none
            summary := "I understand you want to make changes to your store data. For now, I can only read and analyze your store information. Mutation operations will be available in a future update."
            intent := .mutation }) ∧
     (∀ e, mutStage env message = .error e →
        (processMessage env rand message).1 =
          { query := ""
            explanation := "An error occurred while processing your request."
            executionResult := none
            summary := "I\x27m having trouble processing your request. Please try again with a different query."
            intent := .message })) := by
  intro hi
  have hpm : processMessage env rand message = handleMutation env message := by
    unfold processMessage
    simp only [hi]
  rw [hpm]
  unfold handleMutation
  cases hm : mutStage env message with
  | error e =>
    refine ⟨rfl, rfl, ?_, ?_⟩
    · intro rel hrel
      cases hrel
    · intro e' he'
      rfl
  | ok rel =>
    refine ⟨rfl, rfl, ?_, ?_⟩
    · intro rel' hrel
      cases hrel
      rfl
    · intro e' he'
      cases he'

theorem handleMutation_no_execution_witness :
    identifyIntent "delete the old items" = .mutation ∧
    mutStage envMutOk "delete the old items" = .ok mutListW ∧
    ((processMessage envMutOk 0 "delete the old items").2 = [] ∧
     (processMessage envMutOk 0 "delete the old items").1.query = "" ∧
     (processMessage envMutOk 0 "delete the old items").1 =
       { query := ""
         explanation := "Mutation operations are not yet implemented for safety reasons. Found " ++
           toString mutListW.length ++ " relevant mutations. This feature is coming soon!"
         executionResult := none
         summary := "I understand you want to make changes to your store data. For now, I can only read and analyze your store information. Mutation operations will be available in a future update."
         intent := .mutation }) :=
  ⟨by decide, rfl,
    (handleMutation_no_execution envMutOk 0 "delete the old items" (by decide)).1,
    (handleMutation_no_execution envMutOk 0 "delete the old items" (by decide)).2.1,
    (handleMutation_no_execution envMutOk 0 "delete the old items" (by decide)).2.2.1
      mutListW rfl⟩

set_option maxRecDepth 8000 in
/-- C7 -- code bug: when the LLM call is unavailable or throws, the
`catch` block of `AIExternal.buildQuery` calls
`this.determineOperationFromQueries`, a method defined nowhere in the
repository, so the error path throws a `TypeError` that propagates out of
`buildQuery` instead of returning the string-templated fallback the claim
(and the fully written-out template in the catch block) describes; the
intended template does contain `(first: 10)`, the edges/node structure
and the four inline fragments on Product, Order, Customer and
Collection. -/
theorem buildQuery_fallback_throws :
    (∀ (e message : String) (relevantQueries : List RelevantItem),
      buildQuery (.error e) message relevantQueries =
        .error "TypeError: this.determineOperationFromQueries is not a function") ∧
    buildQuery (.error "AI SDK not available") "show me my products" [] =
      .error "TypeError: this.determineOperationFromQueries is not a function" ∧
    (∀ op : ShopifyOperation,
      strContains (fallbackQuery (opName op)) "(first: 10)" = true ∧
      strContains (fallbackQuery (opName op)) "edges \x7b" = true ∧
      strContains (fallbackQuery (opName op)) "node \x7b" = true ∧
      strContains (fallbackQuery (opName op)) "... on Product" = true ∧
      strContains (fallbackQuery (opName op)) "... on Order" = true ∧
      strContains (fallbackQuery (opName op)) "... on Customer" = true ∧
      strContains (fallbackQuery (opName op)) "... on Collection" = true) := by
  refine ⟨fun _ _ _ => rfl, rfl, ?_⟩
  intro op
  cases op <;> exact ⟨by decide, by decide, by decide, by decide, by decide,
    by decide, by decide⟩

theorem alistGet_alistSet {α : Type} (l : List (String × α)) (k : String)
    (v : α) : alistGet (alistSet l k v) k = some v := by
  simp [alistGet, alistSet, List.find?]

theorem introspectAndStore_introspected (st : CacheState) (now : Int)
    (introspection : Except String GQLSchema) (cacheKey : String)
    (r : GetSchemaResult)
    (h : introspectAndStore st now introspection cacheKey = .ok r) :
    r.introspected = true := by
  unfold introspectAndStore at h
  cases introspection with
  | error e => cases h
  | ok s => cases h; rfl

/-- C6 -- `getSchema` returns from the cache without introspecting iff
both maps hold the key and `now` is strictly before the stored expiry
(assuming the stored expiries are positive, as every value the code
stores is); a cache hit returns the cached schema and leaves the state
unchanged; a successful introspection stores the fresh schema with expiry
`now + CACHE_DURATION`; consequently a schema served from the cache whose
expiry was stored at time `t0` (as `t0 + CACHE_DURATION`) is served less
than 30 minutes after `t0`. -/
theorem getSchema_cache_spec (st : CacheState) (now : Int)
    (introspection : Except String GQLSchema) (cacheKey : String)
    (hpos : ∀ e, alistGet st.cacheExpiry cacheKey = some e → 0 < e) :
    ((∃ r, getSchema st now introspection cacheKey = .ok r ∧
        r.introspected = false) ↔
      (∃ c e, alistGet st.schemaCache cacheKey = some c ∧
        alistGet st.cacheExpiry cacheKey = some e ∧ now < e)) ∧
    (∀ c e, alistGet st.schemaCache cacheKey = some c →
      alistGet st.cacheExpiry cacheKey = some e → now < e →
      getSchema st now introspection cacheKey =
        .ok { schema := c, state := st, introspected := false }) ∧
    (∀ r, getSchema st now introspection cacheKey = .ok r →
      r.introspected = true →
      ∃ s, introspection = .ok s ∧ r.schema = s ∧
        alistGet r.state.cacheExpiry cacheKey = some (now + CACHE_DURATION) ∧
        alistGet r.state.schemaCache cacheKey = some s) ∧
    (∀ t0 r, alistGet st.cacheExpiry cacheKey = some (t0 + CACHE_DURATION) →
      getSchema st now introspection cacheKey = .ok r →
      r.introspected = false → now - t0 < CACHE_DURATION) := by
  have hstore : ∀ r, introspectAndStore st now introspection cacheKey = .ok r →
      ∃ s, introspection = .ok s ∧ r.schema = s ∧
        alistGet r.state.cacheExpiry cacheKey = some (now + CACHE_DURATION) ∧
        alistGet r.state.schemaCache cacheKey = some s := by
    intro r h
    unfold introspectAndStore at h
    cases introspection with
    | error e => cases h
    | ok s =>
      cases h
      exact ⟨s, rfl, rfl, alistGet_alistSet _ _ _, alistGet_alistSet _ _ _⟩
  cases hc : alistGet st.schemaCache cacheKey with
  | none =>
    have hg : getSchema st now introspection cacheKey =
        introspectAndStore st now introspection cacheKey := by
      unfold getSchema
      rw [hc]
    refine ⟨?_, ?_, ?_, ?_⟩
    · constructor
      · rintro ⟨r, hr, hrf⟩
        rw [hg] at hr
        have := introspectAndStore_introspected st now introspection cacheKey r hr
        rw [this] at hrf
        cases hrf
      · rintro ⟨c, e, hcs, -, -⟩
        cases hcs
    · intro c e hcs
      cases hcs
    · intro r hr _
      rw [hg] at hr
      exact hstore r hr
    · intro t0 r ht hr hrf
      rw [hg] at hr
      have := introspectAndStore_introspected st now introspection cacheKey r hr
      rw [this] at hrf
      cases hrf
  | some c =>
    cases he : alistGet st.cacheExpiry cacheKey with
    | none =>
      have hg : getSchema st now introspection cacheKey =
          introspectAndStore st now introspection cacheKey := by
        unfold getSchema
        rw [hc, he]
      refine ⟨?_, ?_, ?_, ?_⟩
      · constructor
        · rintro ⟨r, hr, hrf⟩
          rw [hg] at hr
          have := introspectAndStore_introspected st now introspection cacheKey r hr
          rw [this] at hrf
          cases hrf
        · rintro ⟨c', e, -, hce, -⟩
          cases hce
      · intro c' e _ hce
        cases hce
      · intro r hr _
        rw [hg] at hr
        exact hstore r hr
      · intro t0 r ht
        cases ht
    | some e =>
      have hepos : 0 < e := hpos e he
      by_cases hlt : now < e
      · have hcond : (e != 0 && decide (now < e)) = true := by
          simp only [Bool.and_eq_true, bne_iff_ne, ne_eq, decide_eq_true_eq]
          exact ⟨by omega, hlt⟩
        have hg : getSchema st now introspection cacheKey =
            .ok { schema := c, state := st, introspected := false } := by
          unfold getSchema
          rw [hc, he]
          simp only [hcond, if_true]
        refine ⟨?_, ?_, ?_, ?_⟩
        · constructor
          · intro _
            exact ⟨c, e, rfl, rfl, hlt⟩
          · intro _
            exact ⟨_, hg, rfl⟩
        · intro c' e' hcs hce _
          cases hcs
          cases hce
          exact hg
        · intro r hr hrf
          rw [hg] at hr
          cases hr
          cases hrf
        · intro t0 r ht hr hrf
          cases ht
          omega
      · have hdec : decide (now < e) = false := decide_eq_false hlt
        have hcond : (e != 0 && decide (now < e)) = false := by
          rw [hdec, Bool.and_false]
        have hg : getSchema st now introspection cacheKey =
            introspectAndStore st now introspection cacheKey := by
          unfold getSchema
          rw [hc, he]
          simp only [hcond, Bool.false_eq_true, if_false]
        refine ⟨?_, ?_, ?_, ?_⟩
        · constructor
          · rintro ⟨r, hr, hrf⟩
            rw [hg] at hr
            have := introspectAndStore_introspected st now introspection cacheKey r hr
            rw [this] at hrf
            cases hrf
          · rintro ⟨c', e', hcs, hce, hlt'⟩
            cases hcs
            cases hce
            exact absurd hlt' hlt
        · intro c' e' hcs hce hlt'
          cases hcs
          cases hce
          exact absurd hlt' hlt
        · intro r hr _
          rw [hg] at hr
          exact hstore r hr
        · intro t0 r ht hr hrf
          rw [hg] at hr
          have := introspectAndStore_introspected st now introspection cacheKey r hr
          rw [this] at hrf
          cases hrf

theorem getSchema_cache_spec_witness :
    (∀ e, alistGet stC6.cacheExpiry "shopify_admin" = some e → 0 < e) ∧
    alistGet stC6.schemaCache "shopify_admin" =
      some ⟨["Product", "Order"], "QueryRoot"⟩ ∧
    alistGet stC6.cacheExpiry "shopify_admin" = some 1000 ∧
    (500 : Int) < 1000 ∧
    getSchema stC6 500 (.error "no network") "shopify_admin" =
      .ok { schema := ⟨["Product", "Order"], "QueryRoot"⟩, state := stC6,
            introspected := false } :=
  ⟨by intro e he; simp [stC6, alistGet, List.find?] at he; omega,
   rfl, rfl, by decide,
   (getSchema_cache_spec stC6 500 (.error "no network") "shopify_admin"
      (by intro e he; simp [stC6, alistGet, List.find?] at he; omega)).2.1
     ⟨["Product", "Order"], "QueryRoot"⟩ 1000 rfl rfl (by decide)⟩

theorem getOrCreateSubscription_messages (db : DB) (shop : String) :
    (getOrCreateSubscription db shop).1.messages = db.messages := by
  unfold getOrCreateSubscription
  cases db.subscription <;> rfl

theorem getOrCreateSubscription_of_isSome (db : DB) (shop : String)
    (h : db.subscription.isSome) : (getOrCreateSubscription db shop).1 = db := by
  unfold getOrCreateSubscription
  cases hs : db.subscription with
  | none => simp [hs] at h
  | some s => rfl

theorem trackUsage_messages (db : DB) (now : JsDate) (data : UsageData) :
    (trackUsage db now data).1.messages = db.messages :=
  getOrCreateSubscription_messages db data.shop

theorem trackUsage_records (db : DB) (now : JsDate) (data : UsageData) :
    (trackUsage db now data).1.usageRecords =
      db.usageRecords ++ [(trackUsage db now data).2] := by
  show (getOrCreateSubscription db data.shop).1.usageRecords ++ [_] = _
  rw [getOrCreateSubscription_records]
  rfl

theorem trackUsage_subscription_of_isSome (db : DB) (now : JsDate)
    (data : UsageData) (h : db.subscription.isSome) :
    (trackUsage db now data).1.subscription = db.subscription := by
  show (getOrCreateSubscription db data.shop).1.subscription = _
  rw [getOrCreateSubscription_of_isSome db data.shop h]

theorem strStarts_append_right (p s t : String) (h : StrStarts p s) :
    StrStarts p (s ++ t) := by
  obtain ⟨r, hr⟩ := h
  refine ⟨r ++ t.toList, ?_⟩
  show (s ++ t).data = p.toList ++ (r ++ t.toList)
  rw [String.data_append]
  show s.toList ++ t.toList = _
  rw [hr, List.append_assoc]

/-- The thrown message of `saveMessage` begins with
"Usage limit exceeded". -/
theorem usage_error_starts (cu lim : Int) (plan : String) :
    StrStarts "Usage limit exceeded"
      ("Usage limit exceeded. Current usage: " ++ toString cu ++ "/" ++
        toString lim ++ " for " ++ plan) := by
  refine strStarts_append_right _ _ _ (strStarts_append_right _ _ _
    (strStarts_append_right _ _ _ (strStarts_append_right _ _ _
      (strStarts_append_right _ _ _ ?_))))
  exact ⟨". Current usage: ".toList, by decide⟩

/-- C3 -- `ChatService.saveMessage`: for role "user" the usage limit is
checked first; when exceeded it throws an error starting with
"Usage limit exceeded" and creates no chat message and no usage record
(and, whenever the shop already has a subscription row, leaves the state
fully unchanged); when within the limit it creates the message and then
records exactly one usage record of type `chat_query` whose metadata
references the new message id.  For role "assistant" no usage check or
usage tracking happens and the message is always created. -/
theorem saveMessage_spec (db : DB) (now : JsDate) (data : ChatMessageData) :
    (data.role = "user" →
      (checkUsageLimit db now data.shop "chat_query").2.isWithinLimit = false →
      (∃ err, (saveMessage db now data).2 = .error err ∧
        StrStarts "Usage limit exceeded" err) ∧
      (saveMessage db now data).1.messages = db.messages ∧
      (saveMessage db now data).1.usageRecords = db.usageRecords ∧
      (db.subscription.isSome → (saveMessage db now data).1 = db)) ∧
    (data.role = "user" →
      (checkUsageLimit db now data.shop "chat_query").2.isWithinLimit = true →
      ∃ m r, (saveMessage db now data).2 = .ok m ∧
        (saveMessage db now data).1.messages = db.messages ++ [m] ∧
        m.role = data.role ∧ m.message = data.message ∧ m.shop = data.shop ∧
        (saveMessage db now data).1.usageRecords = db.usageRecords ++ [r] ∧
        r.usageType = "chat_query" ∧ r.shop = data.shop ∧
        r.metadata = some { messageId := some m.id
                            conversationId := data.conversationId }) ∧
    (data.role = "assistant" →
      ∃ m, (saveMessage db now data).2 = .ok m ∧
        (saveMessage db now data).1.messages = db.messages ++ [m] ∧
        m.role = data.role ∧ m.message = data.message ∧
        (saveMessage db now data).1.usageRecords = db.usageRecords ∧
        (saveMessage db now data).1.subscription = db.subscription) := by
  refine ⟨?_, ?_, ?_⟩
  · intro hrole hlim
    have hcond : (data.role == "user") = true := by rw [hrole]; rfl
    have hsm : saveMessage db now data =
        ((checkUsageLimit db now data.shop "chat_query").1,
         .error ("Usage limit exceeded. Current usage: " ++
           toString (checkUsageLimit db now data.shop "chat_query").2.currentUsage ++
           "/" ++
           toString (checkUsageLimit db now data.shop "chat_query").2.limit ++
           " for " ++
           (checkUsageLimit db now data.shop "chat_query").2.planName)) := by
      unfold saveMessage
      simp only [hcond, hlim, Bool.not_false, if_true]
    rw [hsm]
    refine ⟨⟨_, rfl, usage_error_starts _ _ _⟩, ?_, ?_, ?_⟩
    · show (getOrCreateSubscription db data.shop).1.messages = db.messages
      exact getOrCreateSubscription_messages db data.shop
    · show (getOrCreateSubscription db data.shop).1.usageRecords = db.usageRecords
      exact getOrCreateSubscription_records db data.shop
    · intro hs
      show (getOrCreateSubscription db data.shop).1 = db
      exact getOrCreateSubscription_of_isSome db data.shop hs
  · intro hrole hlim
    have hcond : (data.role == "user") = true := by rw [hrole]; rfl
    have hnot : (!(checkUsageLimit db now data.shop "chat_query").2.isWithinLimit) = false := by
      rw [hlim]; rfl
    have hsm : saveMessage db now data =
        ((trackUsage
            (createMessage (checkUsageLimit db now data.shop "chat_query").1 data).1 now
            ⟨data.shop, data.userId, "chat_query", none,
              some ⟨some (createMessage (checkUsageLimit db now data.shop "chat_query").1 data).2.id,
                data.conversationId⟩⟩).1,
         .ok (createMessage (checkUsageLimit db now data.shop "chat_query").1 data).2) := by
      unfold saveMessage
      simp only [hcond, hnot, if_true, Bool.false_eq_true, if_false]
    rw [hsm]
    refine ⟨(createMessage (checkUsageLimit db now data.shop "chat_query").1 data).2,
      (trackUsage
        (createMessage (checkUsageLimit db now data.shop "chat_query").1 data).1 now
        ⟨data.shop, data.userId, "chat_query", none,
          some ⟨some (createMessage (checkUsageLimit db now data.shop "chat_query").1 data).2.id,
            data.conversationId⟩⟩).2,
      rfl, ?_, rfl, rfl, rfl, ?_, rfl, rfl, rfl⟩
    · rw [trackUsage_messages]
      show (getOrCreateSubscription db data.shop).1.messages ++ [_] = _
      rw [getOrCreateSubscription_messages]
      rfl
    · rw [trackUsage_records]
      show (getOrCreateSubscription db data.shop).1.usageRecords ++ [_] = _
      rw [getOrCreateSubscription_records]
  · intro hrole
    have hcond : (data.role == "user") = false := by rw [hrole]; rfl
    have hsm : saveMessage db now data =
        ((createMessage db data).1, .ok (createMessage db data).2) := by
      unfold saveMessage
      simp only [hcond, Bool.false_eq_true, if_false]
    rw [hsm]
    exact ⟨(createMessage db data).2, rfl, rfl, rfl, rfl, rfl, rfl⟩

theorem saveMessage_spec_witness :
    dataU.role = "user" ∧
    (checkUsageLimit dbW nowW dataU.shop "chat_query").2.isWithinLimit = true ∧
    (∃ m r, (saveMessage dbW nowW dataU).2 = .ok m ∧
      (saveMessage dbW nowW dataU).1.messages = dbW.messages ++ [m] ∧
      m.role = dataU.role ∧ m.message = dataU.message ∧ m.shop = dataU.shop ∧
      (saveMessage dbW nowW dataU).1.usageRecords = dbW.usageRecords ++ [r] ∧
      r.usageType = "chat_query" ∧ r.shop = dataU.shop ∧
      r.metadata = some { messageId := some m.id
                          conversationId := dataU.conversationId }) :=
  ⟨rfl, by decide, (saveMessage_spec dbW nowW dataU).2.1 rfl (by decide)⟩
